import Mathlib

/-!
# Verification of the RVL-Node coordinator (`src/index.ts`)

A shallow embedding of the `RVL` coordinator class. The class's mutable
fields become the record `RVLState`; each public method becomes a function
from the pre-state to an `Except` outcome together with the post-state and
the list of commands forwarded to the bridge module; the callbacks the
constructor registers with the bridge (the three receive handlers and the
init-completion callback) become functions from the pre-state to the
post-state plus the list of emitted events. The bridge module itself
(`./bridge`) and the wave type declarations (`./types`) are not part of the
coordinator source; the few values the coordinator needs from them are
modelled from the specification and marked as such.
-/

namespace RVLNode

/-- Modelled from the spec: the `Wave` record exported by the missing
`./types` module — an opaque animation-parameter record with
amplitude/phase/offset fields. -/
structure Wave where
  amplitude : Int
  phase : Int
  offset : Int
deriving DecidableEq, Repr

/-- Modelled from the spec: `MAX_NUM_WAVES` exported by the missing
`./bridge` module; the spec fixes it to 8. -/
def MAX_NUM_WAVES : Nat := 8

/-- Modelled from the spec: `DEFAULT_TIME_PERIOD` exported by the missing
`./bridge` module; a fixed numeric constant whose value the spec leaves
unspecified. -/
def DEFAULT_TIME_PERIOD : Int := 255

/-- Modelled from the spec: `DEFAULT_DISTANCE_PERIOD` exported by the
missing `./bridge` module; a fixed numeric constant whose value the spec
leaves unspecified. -/
def DEFAULT_DISTANCE_PERIOD : Int := 32

/-- Modelled from the spec: `createEmptyWave` exported by the missing
`./bridge` module — a well-defined zero/neutral `Wave` value used for
padding. -/
def createEmptyWave : Wave := ⟨0, 0, 0⟩

/-- A fully-populated `IWaveParameters` value: the shape stored in
`_waveParameters` and delivered by bridge notifications. The `waves` list
carries no length restriction, mirroring the structural TS type. -/
structure WaveParameters where
  waves : List Wave
  timePeriod : Int
  distancePeriod : Int
deriving DecidableEq, Repr

/-- Modelled from the spec: `createEmptyWaveParameters` exported by the
missing `./bridge` module — `MAX_NUM_WAVES` empty waves plus the default
periods. -/
def createEmptyWaveParameters : WaveParameters :=
  ⟨List.replicate MAX_NUM_WAVES createEmptyWave,
   DEFAULT_TIME_PERIOD, DEFAULT_DISTANCE_PERIOD⟩

/-- The caller-facing `IWaveParameters` argument of `setWaveParameters`:
`timePeriod` and `distancePeriod` are optional and defaulted by the
method's parameter destructuring. -/
structure WaveParametersInput where
  waves : List Wave
  timePeriod : Option Int
  distancePeriod : Option Int
deriving DecidableEq, Repr

/-- The `mode` option: `'controller' | 'receiver'`. -/
inductive Mode
  | controller
  | receiver
deriving DecidableEq, Repr

/-- The `logLevel` option: `'error' | 'info' | 'debug'`. -/
inductive LogLevel
  | error
  | info
  | debug
deriving DecidableEq, Repr

/-- The `IRVLOptions` constructor argument; optional fields are `Option`
and defaulted by the constructor's parameter destructuring. -/
structure IRVLOptions where
  networkInterface : String
  channel : Int
  port : Option Int
  mode : Option Mode
  logLevel : Option LogLevel
  enableClockSync : Option Bool
deriving DecidableEq, Repr

/-- The distinct `throw new Error(...)` sites of the source, named as the
spec names them. -/
inductive RVLError
  | AlreadyCreatedError
  | NotInitializedError
  | WrongRoleError
  | TooManyWavesError
deriving DecidableEq, Repr

/-- The events the coordinator emits (the `IEvents` interface). -/
inductive RVLEvent
  | initialized
  | waveParametersUpdated (p : WaveParameters)
  | powerStateUpdated (b : Bool)
  | brightnessUpdated (n : Int)
deriving DecidableEq, Repr

/-- Calls the coordinator makes into the bridge module, in program order:
the three handler registrations, `init`, `start`, `stop`, and the three
push functions. -/
inductive BridgeCmd
  | registerWaveHandler
  | registerPowerHandler
  | registerBrightnessHandler
  | initBridge (networkInterface : String) (port : Int) (mode : Mode)
      (channel : Int) (logLevel : LogLevel) (enableClockSync : Bool)
  | startCmd
  | stopCmd
  | pushWaveParameters (p : WaveParameters)
  | pushPowerState (b : Bool)
  | pushBrightness (n : Int)
deriving DecidableEq, Repr

/-- The mutable instance fields of the `RVL` class. -/
structure RVLState where
  isInitialized : Bool
  waveParameters : WaveParameters
  mode : Mode
  brightness : Int
  powerState : Bool
deriving DecidableEq, Repr

/-- The process-wide creation guard (`let created = false`) together with
the single existing instance, if any. -/
structure Process where
  created : Bool
  existingInstance : Option RVLState
deriving DecidableEq, Repr

namespace RVL

/-- Body of the constructor after the creation guard: defaults applied by
destructuring, default field values, the three handler registrations, and
the `init` call — in source order. -/
def construct (opts : IRVLOptions) : RVLState × List BridgeCmd :=
  let port := opts.port.getD 4978
  let mode := opts.mode.getD Mode.receiver
  let logLevel := opts.logLevel.getD LogLevel.info
  let enableClockSync := opts.enableClockSync.getD false
  (⟨false, createEmptyWaveParameters, mode, 0, false⟩,
   [BridgeCmd.registerWaveHandler,
    BridgeCmd.registerPowerHandler,
    BridgeCmd.registerBrightnessHandler,
    BridgeCmd.initBridge opts.networkInterface port mode opts.channel
      logLevel enableClockSync])

/-- Constructing against the process-wide guard: `if (created) throw`;
on failure the guard and any existing instance are untouched. -/
def processConstruct (p : Process) (opts : IRVLOptions) :
    Except RVLError Unit × Process × List BridgeCmd :=
  if p.created then
    (Except.error RVLError.AlreadyCreatedError, p, [])
  else
    let (s, cmds) := construct opts
    (Except.ok (), ⟨true, some s⟩, cmds)

/-- The callback registered with `listenForWaveParameterUpdates`: store the
new parameters and emit `waveParametersUpdated` with the stored value. -/
def onWaveParametersReceived (s : RVLState) (p : WaveParameters) :
    RVLState × List RVLEvent :=
  ({ s with waveParameters := p }, [RVLEvent.waveParametersUpdated p])

/-- The callback registered with `listenForPowerStateUpdates`. -/
def onPowerStateReceived (s : RVLState) (b : Bool) :
    RVLState × List RVLEvent :=
  ({ s with powerState := b }, [RVLEvent.powerStateUpdated b])

/-- The callback registered with `listenForBrightnessUpdates`. -/
def onBrightnessReceived (s : RVLState) (n : Int) :
    RVLState × List RVLEvent :=
  ({ s with brightness := n }, [RVLEvent.brightnessUpdated n])

/-- The completion callback passed to `init`: push the current wave
parameters to the bridge, set `_isInitialized`, emit `initialized`. -/
def onBridgeReady (s : RVLState) :
    RVLState × List RVLEvent × List BridgeCmd :=
  ({ s with isInitialized := true },
   [RVLEvent.initialized],
   [BridgeCmd.pushWaveParameters s.waveParameters])

/-- `RVL.start`: lifecycle guard, then forward to the bridge. -/
def startRun (s : RVLState) :
    Except RVLError Unit × RVLState × List BridgeCmd :=
  if !s.isInitialized then
    (Except.error RVLError.NotInitializedError, s, [])
  else
    (Except.ok (), s, [BridgeCmd.startCmd])

/-- `RVL.stop`: lifecycle guard, then forward to the bridge. -/
def stopRun (s : RVLState) :
    Except RVLError Unit × RVLState × List BridgeCmd :=
  if !s.isInitialized then
    (Except.error RVLError.NotInitializedError, s, [])
  else
    (Except.ok (), s, [BridgeCmd.stopCmd])

/-- The padding loop of `setWaveParameters`: clone the caller's array and
push empty waves until the length reaches `MAX_NUM_WAVES`. -/
def padWaves (ws : List Wave) : List Wave :=
  ws ++ List.replicate (MAX_NUM_WAVES - ws.length) createEmptyWave

/-- `RVL.setWaveParameters`: defaults from destructuring, the
initialization guard, the role guard, the capacity guard, then padding,
wholesale replacement of `_waveParameters`, and the push to the bridge —
in source order. A thrown error leaves the fields untouched because every
throw precedes the first mutation. -/
def setWaveParametersRun (s : RVLState) (input : WaveParametersInput) :
    Except RVLError Unit × RVLState × List BridgeCmd :=
  let timePeriod := input.timePeriod.getD DEFAULT_TIME_PERIOD
  let distancePeriod := input.distancePeriod.getD DEFAULT_DISTANCE_PERIOD
  if !s.isInitialized then
    (Except.error RVLError.NotInitializedError, s, [])
  else if s.mode ≠ Mode.controller then
    (Except.error RVLError.WrongRoleError, s, [])
  else if input.waves.length > MAX_NUM_WAVES then
    (Except.error RVLError.TooManyWavesError, s, [])
  else
    let wp : WaveParameters := ⟨padWaves input.waves, timePeriod, distancePeriod⟩
    (Except.ok (), { s with waveParameters := wp },
     [BridgeCmd.pushWaveParameters wp])

/-- `RVL.setPowerState`: unconditional forward to the bridge; no guard,
no local mutation. -/
def setPowerStateRun (s : RVLState) (b : Bool) : RVLState × List BridgeCmd :=
  (s, [BridgeCmd.pushPowerState b])

/-- `RVL.setBrightness`: unconditional forward to the bridge; no guard,
no local mutation. -/
def setBrightnessRun (s : RVLState) (n : Int) : RVLState × List BridgeCmd :=
  (s, [BridgeCmd.pushBrightness n])

end RVL

/-- One externally-triggered step on a live coordinator: a public method
call, the bridge's init-completion signal, or an inbound bridge
notification dispatched to a registered receive handler. -/
inductive Op
  | bridgeReady
  | setWaveParamsOp (input : WaveParametersInput)
  | setPowerStateOp (b : Bool)
  | setBrightnessOp (n : Int)
  | startOp
  | stopOp
  | waveParamsReceived (p : WaveParameters)
  | powerStateReceived (b : Bool)
  | brightnessReceived (n : Int)
deriving DecidableEq, Repr

/-- Dispatch one step: the resulting state (methods that throw leave the
state as the method embedding leaves it) and the events emitted during the
step. -/
def applyOp (s : RVLState) : Op → RVLState × List RVLEvent
  | Op.bridgeReady =>
      let (s', evs, _) := RVL.onBridgeReady s
      (s', evs)
  | Op.setWaveParamsOp input => ((RVL.setWaveParametersRun s input).2.1, [])
  | Op.setPowerStateOp b => ((RVL.setPowerStateRun s b).1, [])
  | Op.setBrightnessOp n => ((RVL.setBrightnessRun s n).1, [])
  | Op.startOp => ((RVL.startRun s).2.1, [])
  | Op.stopOp => ((RVL.stopRun s).2.1, [])
  | Op.waveParamsReceived p => RVL.onWaveParametersReceived s p
  | Op.powerStateReceived b => RVL.onPowerStateReceived s b
  | Op.brightnessReceived n => RVL.onBrightnessReceived s n

/-- The state after a sequence of steps. -/
def runState (s : RVLState) : List Op → RVLState
  | [] => s
  | op :: ops => runState (applyOp s op).1 ops

/-- The events emitted along a sequence of steps, in order. -/
def runEvents (s : RVLState) : List Op → List RVLEvent
  | [] => []
  | op :: ops => (applyOp s op).2 ++ runEvents (applyOp s op).1 ops

/-- How many `initialized` events a trace contains. -/
def countInitEvents (evs : List RVLEvent) : Nat :=
  evs.countP fun e => match e with
    | RVLEvent.initialized => true
    | _ => false

/-- How many bridge ready-signals a step sequence contains. -/
def countReady (ops : List Op) : Nat :=
  ops.countP fun op => match op with
    | Op.bridgeReady => true
    | _ => false

/-! ## Helper lemmas about the success path of `setWaveParameters` -/

theorem padWaves_length (ws : List Wave) (h : ws.length ≤ MAX_NUM_WAVES) :
    (RVL.padWaves ws).length = MAX_NUM_WAVES := by
  simp only [RVL.padWaves, List.length_append, List.length_replicate]
  omega

theorem padWaves_take (ws : List Wave) :
    (RVL.padWaves ws).take ws.length = ws :=
  List.take_left ws _

theorem padWaves_drop (ws : List Wave) :
    (RVL.padWaves ws).drop ws.length =
      List.replicate (MAX_NUM_WAVES - ws.length) createEmptyWave :=
  List.drop_left ws _

theorem setWaveParametersRun_success (s : RVLState) (input : WaveParametersInput)
    (hInit : s.isInitialized = true) (hMode : s.mode = Mode.controller)
    (hLen : input.waves.length ≤ MAX_NUM_WAVES) :
    RVL.setWaveParametersRun s input =
      (Except.ok (),
       { s with waveParameters :=
           ⟨RVL.padWaves input.waves,
            input.timePeriod.getD DEFAULT_TIME_PERIOD,
            input.distancePeriod.getD DEFAULT_DISTANCE_PERIOD⟩ },
       [BridgeCmd.pushWaveParameters
          ⟨RVL.padWaves input.waves,
           input.timePeriod.getD DEFAULT_TIME_PERIOD,
           input.distancePeriod.getD DEFAULT_DISTANCE_PERIOD⟩]) := by
  simp [RVL.setWaveParametersRun, hInit, hMode, Nat.not_lt.mpr hLen]

/-! ## Sample values used by witnesses and counterexamples -/

/-- A freshly-constructed controller-role instance, after the bridge's
ready-signal has fired (so it is initialized). -/
def sampleCtrl : RVLState :=
  (applyOp (RVL.construct ⟨"eth0", 1, none, some Mode.controller, none, none⟩).1
    Op.bridgeReady).1

/-- A freshly-constructed receiver-role instance, still uninitialized. -/
def uninitReceiver : RVLState :=
  (RVL.construct ⟨"eth0", 1, none, some Mode.receiver, none, none⟩).1

/-- The receiver-role instance after the bridge's ready-signal. -/
def initReceiver : RVLState := (applyOp uninitReceiver Op.bridgeReady).1

/-- Two distinguishable sample waves. -/
def w1 : Wave := ⟨1, 2, 3⟩

def w2 : Wave := ⟨4, 5, 6⟩

/-- A two-wave `setWaveParameters` argument that leaves both periods to
their defaults. -/
def sampleInput : WaveParametersInput := ⟨[w1, w2], none, none⟩

/-- A nine-wave argument, one over the spec's `MAX_NUM_WAVES = 8`. -/
def oversizedInput : WaveParametersInput :=
  ⟨List.replicate (MAX_NUM_WAVES + 1) createEmptyWave, none, none⟩

/-! ## C1 -/

/-- C1: on an initialized controller, `setWaveParameters` with at most
`MAX_NUM_WAVES` waves succeeds and stores a `waves` list of length exactly
`MAX_NUM_WAVES` whose first entries are the input in order and whose
remaining entries are the empty wave; absent periods default to
`DEFAULT_TIME_PERIOD` and `DEFAULT_DISTANCE_PERIOD`. -/
theorem setWaveParameters_pads_and_defaults (s : RVLState)
    (input : WaveParametersInput)
    (hInit : s.isInitialized = true) (hMode : s.mode = Mode.controller)
    (hLen : input.waves.length ≤ MAX_NUM_WAVES)
    (hT : input.timePeriod = none) (hD : input.distancePeriod = none) :
    (RVL.setWaveParametersRun s input).1 = Except.ok () ∧
    ((RVL.setWaveParametersRun s input).2.1).waveParameters.waves.length
      = MAX_NUM_WAVES ∧
    ((RVL.setWaveParametersRun s input).2.1).waveParameters.waves.take
      input.waves.length = input.waves ∧
    ((RVL.setWaveParametersRun s input).2.1).waveParameters.waves.drop
      input.waves.length
      = List.replicate (MAX_NUM_WAVES - input.waves.length) createEmptyWave ∧
    ((RVL.setWaveParametersRun s input).2.1).waveParameters.timePeriod
      = DEFAULT_TIME_PERIOD ∧
    ((RVL.setWaveParametersRun s input).2.1).waveParameters.distancePeriod
      = DEFAULT_DISTANCE_PERIOD := by
  rw [setWaveParametersRun_success s input hInit hMode hLen]
  refine ⟨rfl, ?_, ?_, ?_, ?_, ?_⟩
  · exact padWaves_length input.waves hLen
  · exact padWaves_take input.waves
  · exact padWaves_drop input.waves
  · simp [hT]
  · simp [hD]

/-- Witness for C1 at the sample controller and the two-wave input. -/
theorem setWaveParameters_pads_and_defaults_witness :
    sampleCtrl.isInitialized = true ∧ sampleCtrl.mode = Mode.controller ∧
    sampleInput.waves.length ≤ MAX_NUM_WAVES ∧
    sampleInput.timePeriod = none ∧ sampleInput.distancePeriod = none ∧
    ((RVL.setWaveParametersRun sampleCtrl sampleInput).1 = Except.ok () ∧
     ((RVL.setWaveParametersRun sampleCtrl sampleInput).2.1).waveParameters.waves.length
       = MAX_NUM_WAVES ∧
     ((RVL.setWaveParametersRun sampleCtrl sampleInput).2.1).waveParameters.waves.take
       sampleInput.waves.length = sampleInput.waves ∧
     ((RVL.setWaveParametersRun sampleCtrl sampleInput).2.1).waveParameters.waves.drop
       sampleInput.waves.length
       = List.replicate (MAX_NUM_WAVES - sampleInput.waves.length) createEmptyWave ∧
     ((RVL.setWaveParametersRun sampleCtrl sampleInput).2.1).waveParameters.timePeriod
       = DEFAULT_TIME_PERIOD ∧
     ((RVL.setWaveParametersRun sampleCtrl sampleInput).2.1).waveParameters.distancePeriod
       = DEFAULT_DISTANCE_PERIOD) :=
  ⟨rfl, rfl, by decide, rfl, rfl,
   setWaveParameters_pads_and_defaults sampleCtrl sampleInput rfl rfl
     (by decide) rfl rfl⟩

/-! ## C2 -/

/-- C2: on an initialized controller, `setWaveParameters` with more than
`MAX_NUM_WAVES` waves fails with `TooManyWavesError`, leaves every state
field unchanged, and pushes nothing to the bridge. -/
theorem setWaveParameters_tooManyWaves (s : RVLState)
    (input : WaveParametersInput)
    (hInit : s.isInitialized = true) (hMode : s.mode = Mode.controller)
    (hLen : input.waves.length > MAX_NUM_WAVES) :
    RVL.setWaveParametersRun s input =
      (Except.error RVLError.TooManyWavesError, s, []) := by
  simp [RVL.setWaveParametersRun, hInit, hMode, hLen]

/-- Witness for C2 at the sample controller and the nine-wave input. -/
theorem setWaveParameters_tooManyWaves_witness :
    sampleCtrl.isInitialized = true ∧ sampleCtrl.mode = Mode.controller ∧
    oversizedInput.waves.length > MAX_NUM_WAVES ∧
    RVL.setWaveParametersRun sampleCtrl oversizedInput =
      (Except.error RVLError.TooManyWavesError, sampleCtrl, []) :=
  ⟨rfl, rfl, by decide,
   setWaveParameters_tooManyWaves sampleCtrl oversizedInput rfl rfl (by decide)⟩

/-! ## C3 -/

/-- C3: before the `initialized` transition, `start`, `stop` and
`setWaveParameters` all fail with `NotInitializedError`, leave the state
unchanged, and push nothing to the bridge. -/
theorem uninitialized_calls_fail (s : RVLState) (input : WaveParametersInput)
    (h : s.isInitialized = false) :
    RVL.startRun s = (Except.error RVLError.NotInitializedError, s, []) ∧
    RVL.stopRun s = (Except.error RVLError.NotInitializedError, s, []) ∧
    RVL.setWaveParametersRun s input =
      (Except.error RVLError.NotInitializedError, s, []) := by
  refine ⟨?_, ?_, ?_⟩ <;>
    simp [RVL.startRun, RVL.stopRun, RVL.setWaveParametersRun, h]

/-- Witness for C3 at the freshly-constructed receiver. -/
theorem uninitialized_calls_fail_witness :
    uninitReceiver.isInitialized = false ∧
    (RVL.startRun uninitReceiver =
       (Except.error RVLError.NotInitializedError, uninitReceiver, []) ∧
     RVL.stopRun uninitReceiver =
       (Except.error RVLError.NotInitializedError, uninitReceiver, []) ∧
     RVL.setWaveParametersRun uninitReceiver sampleInput =
       (Except.error RVLError.NotInitializedError, uninitReceiver, [])) :=
  ⟨rfl, uninitialized_calls_fail uninitReceiver sampleInput rfl⟩

/-! ## C4 -/

/-- C4 counterexample: on an uninitialized receiver, `setWaveParameters`
fails with `NotInitializedError`, not `WrongRoleError` — the lifecycle
check runs before the role check, so the claim's "regardless of lifecycle
state" is false for the uninitialized state. -/
theorem setWaveParameters_uninit_receiver_not_wrongRole :
    RVL.setWaveParametersRun uninitReceiver ⟨[], none, none⟩ =
      (Except.error RVLError.NotInitializedError, uninitReceiver, []) ∧
    RVLError.NotInitializedError ≠ RVLError.WrongRoleError :=
  ⟨rfl, by decide⟩

/-- C4 (amended): on a receiver-role instance `setWaveParameters` always
fails and never changes state — with `WrongRoleError` when initialized,
and with `NotInitializedError` when uninitialized (the lifecycle check
precedes the role check). -/
theorem setWaveParameters_receiver_always_fails (s : RVLState)
    (input : WaveParametersInput) (hMode : s.mode = Mode.receiver) :
    RVL.setWaveParametersRun s input =
      ((if s.isInitialized then Except.error RVLError.WrongRoleError
        else Except.error RVLError.NotInitializedError), s, []) := by
  cases hI : s.isInitialized <;>
    simp [RVL.setWaveParametersRun, hI, hMode]

/-- Witness for C4 (amended) at the initialized receiver. -/
theorem setWaveParameters_receiver_always_fails_witness :
    initReceiver.mode = Mode.receiver ∧
    RVL.setWaveParametersRun initReceiver sampleInput =
      ((if initReceiver.isInitialized then Except.error RVLError.WrongRoleError
        else Except.error RVLError.NotInitializedError), initReceiver, []) :=
  ⟨rfl, setWaveParameters_receiver_always_fails initReceiver sampleInput rfl⟩

/-! ## C5 -/

/-- C5 counterexample: a reachable state violating the fixed-length
invariant — the inbound wave-parameter handler stores the bridge's payload
verbatim, so a notification whose `waves` list is empty leaves a stored
length of 0, not `MAX_NUM_WAVES`. -/
theorem inbound_payload_breaks_length_invariant :
    (runState uninitReceiver
       [Op.waveParamsReceived ⟨[], DEFAULT_TIME_PERIOD, DEFAULT_DISTANCE_PERIOD⟩]
     ).waveParameters.waves.length ≠ MAX_NUM_WAVES := by
  decide

theorem setWaveParametersRun_preserves_wavesLength (s : RVLState)
    (input : WaveParametersInput)
    (hs : s.waveParameters.waves.length = MAX_NUM_WAVES) :
    ((RVL.setWaveParametersRun s input).2.1).waveParameters.waves.length
      = MAX_NUM_WAVES := by
  cases hI : s.isInitialized with
  | false => simp [RVL.setWaveParametersRun, hI, hs]
  | true =>
      by_cases hM : s.mode = Mode.controller
      · by_cases hL : input.waves.length > MAX_NUM_WAVES
        · simp [RVL.setWaveParametersRun, hI, hM, hL, hs]
        · simp [RVL.setWaveParametersRun, hI, hM, hL]
          exact padWaves_length input.waves (Nat.not_lt.mp hL)
      · simp [RVL.setWaveParametersRun, hI, hM, hs]

theorem applyOp_preserves_wavesLength (s : RVLState) (op : Op)
    (hs : s.waveParameters.waves.length = MAX_NUM_WAVES)
    (hop : ∀ p, op = Op.waveParamsReceived p → p.waves.length = MAX_NUM_WAVES) :
    (applyOp s op).1.waveParameters.waves.length = MAX_NUM_WAVES := by
  cases op with
  | bridgeReady => simpa [applyOp, RVL.onBridgeReady] using hs
  | setWaveParamsOp input =>
      simpa [applyOp] using
        setWaveParametersRun_preserves_wavesLength s input hs
  | setPowerStateOp b => simpa [applyOp, RVL.setPowerStateRun] using hs
  | setBrightnessOp n => simpa [applyOp, RVL.setBrightnessRun] using hs
  | startOp =>
      cases hI : s.isInitialized <;>
        simp [applyOp, RVL.startRun, hI, hs]
  | stopOp =>
      cases hI : s.isInitialized <;>
        simp [applyOp, RVL.stopRun, hI, hs]
  | waveParamsReceived p =>
      simpa [applyOp, RVL.onWaveParametersReceived] using hop p rfl
  | powerStateReceived b =>
      simpa [applyOp, RVL.onPowerStateReceived] using hs
  | brightnessReceived n =>
      simpa [applyOp, RVL.onBrightnessReceived] using hs

theorem runState_preserves_wavesLength (s : RVLState) (ops : List Op)
    (hs : s.waveParameters.waves.length = MAX_NUM_WAVES)
    (h : ∀ p, Op.waveParamsReceived p ∈ ops → p.waves.length = MAX_NUM_WAVES) :
    (runState s ops).waveParameters.waves.length = MAX_NUM_WAVES := by
  induction ops generalizing s with
  | nil => simpa [runState] using hs
  | cons op ops ih =>
      simp only [runState]
      exact ih (applyOp s op).1
        (applyOp_preserves_wavesLength s op hs
          (fun p hp => h p (by rw [hp]; exact List.mem_cons_self _ _)))
        (fun p hp => h p (List.mem_cons_of_mem _ hp))

/-- C5 (amended): starting from construction, the stored `waves` list has
length exactly `MAX_NUM_WAVES` after every sequence of method calls,
ready-signals and inbound notifications, provided every inbound
wave-parameter payload itself has `waves` of length `MAX_NUM_WAVES`; the
inbound handler performs no validation of its own, so the restriction on
payloads is necessary. -/
theorem waves_length_invariant (opts : IRVLOptions) (ops : List Op)
    (h : ∀ p, Op.waveParamsReceived p ∈ ops → p.waves.length = MAX_NUM_WAVES) :
    (runState (RVL.construct opts).1 ops).waveParameters.waves.length
      = MAX_NUM_WAVES := by
  exact runState_preserves_wavesLength _ ops
    (by simp [RVL.construct, createEmptyWaveParameters]) h

/-- Witness for C5 (amended): a run with a method call, a ready-signal and
a well-formed inbound notification. -/
theorem waves_length_invariant_witness :
    (∀ p, Op.waveParamsReceived p ∈
        [Op.bridgeReady, Op.setWaveParamsOp sampleInput,
         Op.waveParamsReceived createEmptyWaveParameters] →
      p.waves.length = MAX_NUM_WAVES) ∧
    (runState
       (RVL.construct ⟨"eth0", 1, none, some Mode.controller, none, none⟩).1
       [Op.bridgeReady, Op.setWaveParamsOp sampleInput,
        Op.waveParamsReceived createEmptyWaveParameters]
     ).waveParameters.waves.length = MAX_NUM_WAVES :=
  ⟨by intro p hp; simp at hp; subst hp; rfl,
   waves_length_invariant ⟨"eth0", 1, none, some Mode.controller, none, none⟩
     [Op.bridgeReady, Op.setWaveParamsOp sampleInput,
      Op.waveParamsReceived createEmptyWaveParameters]
     (by intro p hp; simp at hp; subst hp; rfl)⟩

/-! ## C6 -/

/-- C6 counterexample: the init-completion callback has no once-guard, so
a second simulated ready-signal from the bridge re-emits `initialized` —
two signals produce two `initialized` events, not one. -/
theorem second_ready_signal_reemits :
    countInitEvents
      (runEvents uninitReceiver [Op.bridgeReady, Op.bridgeReady]) = 2 ∧
    (2 : Nat) ≠ 1 :=
  ⟨rfl, by decide⟩

theorem countInit_applyOp (s : RVLState) (op : Op) :
    countInitEvents (applyOp s op).2 =
      (match op with | Op.bridgeReady => 1 | _ => 0) := by
  cases op <;> rfl

theorem countInit_runEvents (s : RVLState) (ops : List Op) :
    countInitEvents (runEvents s ops) = countReady ops := by
  induction ops generalizing s with
  | nil => rfl
  | cons op ops ih =>
      have h := countInit_applyOp s op
      calc countInitEvents (runEvents s (op :: ops))
          = countInitEvents (applyOp s op).2 +
            countInitEvents (runEvents (applyOp s op).1 ops) := by
            simp [runEvents, countInitEvents, List.countP_append]
        _ = countInitEvents (applyOp s op).2 + countReady ops := by
            rw [ih]
        _ = countReady (op :: ops) := by
            rw [h]
            cases op <;> (simp [countReady, List.countP_cons]; try omega)

/-- C6 (amended): each bridge ready-signal pushes the current wave
parameters, sets the lifecycle flag and emits `initialized` exactly once,
so a trace carries exactly one `initialized` event per ready-signal; the
coordinator itself has no guard, and the once-per-process guarantee rests
on the bridge delivering the ready-signal exactly once. -/
theorem initialized_once_per_ready_signal :
    (∀ s : RVLState,
       RVL.onBridgeReady s =
         ({ s with isInitialized := true }, [RVLEvent.initialized],
          [BridgeCmd.pushWaveParameters s.waveParameters])) ∧
    (∀ (s : RVLState) (ops : List Op),
       countInitEvents (runEvents s ops) = countReady ops) :=
  ⟨fun _ => rfl, countInit_runEvents⟩

/-! ## C7 -/

/-- C7: each registered receive handler stores the delivered value in the
matching field, emits the matching typed event carrying that value, and
the matching accessor returns the value afterwards. -/
theorem receive_handlers_update_emit_and_expose :
    ∀ (s : RVLState) (p : WaveParameters) (b : Bool) (n : Int),
      (RVL.onWaveParametersReceived s p =
         ({ s with waveParameters := p }, [RVLEvent.waveParametersUpdated p]) ∧
       (RVL.onWaveParametersReceived s p).1.waveParameters = p) ∧
      (RVL.onPowerStateReceived s b =
         ({ s with powerState := b }, [RVLEvent.powerStateUpdated b]) ∧
       (RVL.onPowerStateReceived s b).1.powerState = b) ∧
      (RVL.onBrightnessReceived s n =
         ({ s with brightness := n }, [RVLEvent.brightnessUpdated n]) ∧
       (RVL.onBrightnessReceived s n).1.brightness = n) :=
  fun _ _ _ _ => ⟨⟨rfl, rfl⟩, ⟨rfl, rfl⟩, ⟨rfl, rfl⟩⟩

/-! ## C8 -/

/-- C8: `setPowerState` and `setBrightness` forward the value to the
bridge unconditionally — no lifecycle guard, no thrown error — and leave
every state field unchanged, so the `powerState` and `brightness`
accessors still return their previous values. -/
theorem set_power_brightness_passthrough :
    ∀ (s : RVLState) (b : Bool) (n : Int),
      RVL.setPowerStateRun s b = (s, [BridgeCmd.pushPowerState b]) ∧
      RVL.setBrightnessRun s n = (s, [BridgeCmd.pushBrightness n]) ∧
      (RVL.setPowerStateRun s b).1.powerState = s.powerState ∧
      (RVL.setPowerStateRun s b).1.brightness = s.brightness ∧
      (RVL.setBrightnessRun s n).1.powerState = s.powerState ∧
      (RVL.setBrightnessRun s n).1.brightness = s.brightness :=
  fun _ _ _ => ⟨rfl, rfl, rfl, rfl, rfl, rfl⟩

/-! ## C9 -/

/-- C9: constructing while the process-wide `created` guard is set fails
with `AlreadyCreatedError` and leaves the guard and the existing first
instance untouched. -/
theorem second_construction_fails (p : Process) (opts : IRVLOptions)
    (h : p.created = true) :
    RVL.processConstruct p opts =
      (Except.error RVLError.AlreadyCreatedError, p, []) := by
  simp [RVL.processConstruct, h]

/-- A process that already holds the sample controller instance. -/
def liveProcess : Process := ⟨true, some sampleCtrl⟩

/-- Witness for C9 at a process holding the sample controller. -/
theorem second_construction_fails_witness :
    liveProcess.created = true ∧
    RVL.processConstruct liveProcess ⟨"wlan0", 2, none, none, none, none⟩ =
      (Except.error RVLError.AlreadyCreatedError, liveProcess, []) :=
  ⟨rfl,
   second_construction_fails liveProcess ⟨"wlan0", 2, none, none, none, none⟩
     rfl⟩

/-! ## C10 -/

/-- C10: the constructor registers the three receive handlers before it
starts bridge initialization (the registration commands precede the
`initBridge` command, and the new instance is still uninitialized), and
the handlers are not lifecycle-gated: on an uninitialized instance each
one still stores the delivered value and emits the matching event. -/
theorem handlers_before_init_and_ungated :
    (∀ opts : IRVLOptions,
       (RVL.construct opts).2 =
         [BridgeCmd.registerWaveHandler, BridgeCmd.registerPowerHandler,
          BridgeCmd.registerBrightnessHandler,
          BridgeCmd.initBridge opts.networkInterface (opts.port.getD 4978)
            (opts.mode.getD Mode.receiver) opts.channel
            (opts.logLevel.getD LogLevel.info)
            (opts.enableClockSync.getD false)] ∧
       (RVL.construct opts).1.isInitialized = false) ∧
    (∀ s : RVLState, s.isInitialized = false →
       ∀ (p : WaveParameters) (b : Bool) (n : Int),
         RVL.onWaveParametersReceived s p =
           ({ s with waveParameters := p },
            [RVLEvent.waveParametersUpdated p]) ∧
         RVL.onPowerStateReceived s b =
           ({ s with powerState := b }, [RVLEvent.powerStateUpdated b]) ∧
         RVL.onBrightnessReceived s n =
           ({ s with brightness := n }, [RVLEvent.brightnessUpdated n])) :=
  ⟨fun _ => ⟨rfl, rfl⟩, fun _ _ _ _ _ => ⟨rfl, rfl, rfl⟩⟩

/-- Witness for C10's lifecycle hypothesis at the freshly-constructed,
still-uninitialized receiver. -/
theorem handlers_before_init_and_ungated_witness :
    uninitReceiver.isInitialized = false ∧
    (RVL.onWaveParametersReceived uninitReceiver createEmptyWaveParameters =
       ({ uninitReceiver with waveParameters := createEmptyWaveParameters },
        [RVLEvent.waveParametersUpdated createEmptyWaveParameters]) ∧
     RVL.onPowerStateReceived uninitReceiver true =
       ({ uninitReceiver with powerState := true },
        [RVLEvent.powerStateUpdated true]) ∧
     RVL.onBrightnessReceived uninitReceiver 5 =
       ({ uninitReceiver with brightness := 5 },
        [RVLEvent.brightnessUpdated 5])) :=
  ⟨rfl,
   handlers_before_init_and_ungated.2 uninitReceiver rfl
     createEmptyWaveParameters true 5⟩

end RVLNode
